import Mathlib

/-!
Shallow embedding of the ingestion and anomaly pipeline of the
real-time-iot-edge-agent backend, together with theorems checking the
natural-language specification against it.

Measurements are modelled as exact rationals (JavaScript numbers are
floating point; every algorithmic branch of the code is preserved, and
`Math.sqrt` is threaded through as an explicit function parameter so that
each theorem states which of its values it relies on).

Embedded modules:
* `src/backend/src/anomaly/median-deviation.ts` (`MedianDeviationModel.score`,
  `MedianDeviationEngine.scoreBatch`; identical code also ships as
  `isoforest.ts`),
* `src/backend/src/anomaly/zscore.ts` (`ZScoreEngine.updateStats`,
  `calculateZScore`, `scoreBatch`),
* `src/backend/src/mqtt/bridge.ts` (`handleMQTTMessage`, `ensureDeviceExists`,
  `storeMetric`, `addToBatch`, `processBatchIfReady`, `storeAnomalies`,
  `emitMetricUpdate`, `emitAnomalyUpdate`),
* `src/backend/src/routes/ingest.ts` (the POST /api/ingest handler),
* `src/backend/src/realtime.ts` (`emitMetricNew`, `emitAnomalyNew`,
  `emitDeviceUpdate`).
-/

namespace Iot

/-- One telemetry point: the four scalar measurements of
`MetricPoint` in `anomaly/engine.ts`. -/
structure MetricPoint where
  temperature_c : ℚ
  vibration_g : ℚ
  humidity_pct : ℚ
  voltage_v : ℚ
deriving Repr, DecidableEq

/-- One scoring result: `AnomalyResult` in `anomaly/engine.ts`. -/
structure AnomalyResult where
  pointIndex : ℕ
  score : ℚ
  isAnomaly : Bool
deriving Repr, DecidableEq

/-- JavaScript `x || 1`: `0` is falsy and becomes `1`; every other rational
is kept (this is how both `deviations[...] || 1` and `mads[i] || 1` behave
in `MedianDeviationModel.score`). -/
def jsOr1 (q : ℚ) : ℚ := if q = 0 then 1 else q

/-- `Math.abs` on exact rationals. -/
def jsAbs (q : ℚ) : ℚ := if q < 0 then -q else q

/-- `Math.max` on two exact rationals. -/
def jsMax (a b : ℚ) : ℚ := if a < b then b else a

/-- Ascending sort, the effect of `array.sort((a, b) => a - b)`. -/
def jsSortAsc (l : List ℚ) : List ℚ := List.insertionSort (· ≤ ·) l

/-- `values[Math.floor(values.length / 2)]` over the ascending sort of
`values` (the upper-middle element at even lengths), as in
`MedianDeviationModel.score`. -/
def medianOf (values : List ℚ) : ℚ :=
  (jsSortAsc values).getD (values.length / 2) 0

/-- The raw MAD of `MedianDeviationModel.score`: deviations from
`medianOf`, sorted ascending, indexed at `Math.floor(length / 2)`
(before the `|| 1` fallback is applied). -/
def madOf (values : List ℚ) : ℚ :=
  let med := medianOf values
  let deviations := jsSortAsc (values.map (fun v => jsAbs (v - med)))
  deviations.getD (values.length / 2) 0

/-- The feature row `[p.temperature_c, p.vibration_g, p.humidity_pct,
p.voltage_v]` built by `MedianDeviationEngine.scoreBatch`. -/
def featuresOf (p : MetricPoint) : List ℚ :=
  [p.temperature_c, p.vibration_g, p.humidity_pct, p.voltage_v]

/-- Column `i` of a feature matrix: `features.map(f => f[i])`. -/
def featureColumn (features : List (List ℚ)) (i : ℕ) : List ℚ :=
  features.map (fun f => f.getD i 0)

/-- The per-point loop body of `MedianDeviationModel.score`: the negated
mean over the features of `|point[i] - medians[i]| / (mads[i] || 1)`. -/
def mdPointScore (medians mads : List ℚ) (nFeatures : ℕ) (point : List ℚ) : ℚ :=
  -(((List.range nFeatures).map
      (fun i => jsAbs (point.getD i 0 - medians.getD i 0) / jsOr1 (mads.getD i 0))).sum)
    / nFeatures

/-- `MedianDeviationModel.score` (also `SimpleIsolationForest.score` in
`isoforest.ts`): per-feature medians and `|| 1`-floored MADs of the given
feature matrix, then one negated normalised distance per row. -/
def mdScore (features : List (List ℚ)) : List ℚ :=
  match features with
  | [] => []
  | f0 :: _ =>
    let nFeatures := f0.length
    let medians := (List.range nFeatures).map (fun i => medianOf (featureColumn features i))
    let mads := (List.range nFeatures).map (fun i => jsOr1 (madOf (featureColumn features i)))
    features.map (mdPointScore medians mads nFeatures)

/-- `array.slice(-n)` for the case the engine uses it: keeps the last `n`
elements, except that `slice(-0)` is `slice(0)` and keeps everything. -/
def jsSliceLast {α : Type} (l : List α) (n : ℕ) : List α :=
  if n = 0 then l else l.drop (l.length - n)

/-- The window update at the top of `MedianDeviationEngine.scoreBatch`:
append the new points, then keep only the most recent `windowSize`. -/
def pushWindow (windowSize : ℕ) (window points : List MetricPoint) : List MetricPoint :=
  let devicePoints := window ++ points
  if devicePoints.length > windowSize then jsSliceLast devicePoints windowSize
  else devicePoints

/-- `MedianDeviationEngine.scoreBatch` for one device (`recentPoints`
keyed at the device id is the `window` argument; the updated window is
returned alongside the results). Mirrors the source: early zero results
when the window holds fewer than 2 points; otherwise the threshold is
read at index `Math.floor(n * (100 - P) / 100)` of the ascending sort of
the whole window's scores (`|| 0` on an in-range rational is the
identity, and `getD` returns the same `0` default out of range), while
the reported scores come from scoring the new batch on its own. -/
def mdScoreBatch (windowSize thresholdPercentile : ℕ)
    (window points : List MetricPoint) : List AnomalyResult × List MetricPoint :=
  let devicePoints := pushWindow windowSize window points
  if devicePoints.length < 2 then
    (points.enum.map (fun x => ⟨x.1, 0, false⟩), devicePoints)
  else
    let allFeatures := devicePoints.map featuresOf
    let newFeatures := points.map featuresOf
    let allScores := mdScore allFeatures
    let sortedScores := jsSortAsc allScores
    let thresholdIndex := sortedScores.length * (100 - thresholdPercentile) / 100
    let threshold := sortedScores.getD thresholdIndex 0
    let newScores := mdScore newFeatures
    (newScores.enum.map (fun x => ⟨x.1, jsAbs x.2, decide (x.2 < threshold)⟩), devicePoints)

section ZScore

/-- Per-metric state of `ZScoreEngine`: the `{mean, std, points}` record
of `DeviceStats` in `zscore.ts`. -/
structure MetricStat where
  mean : ℚ
  std : ℚ
  points : List ℚ
deriving Repr, DecidableEq

/-- The initial per-metric record `{mean: 0, std: 1, points: []}`. -/
def initStat : MetricStat := ⟨0, 1, []⟩

/-- `DeviceStats` in `zscore.ts`: one `MetricStat` per measurement. -/
structure DeviceStats where
  temperature : MetricStat
  vibration : MetricStat
  humidity : MetricStat
  voltage : MetricStat
deriving Repr, DecidableEq

/-- The fresh `DeviceStats` record installed on a device's first point. -/
def initStats : DeviceStats := ⟨initStat, initStat, initStat, initStat⟩

/-- `ZScoreEngine.updateStats` for one metric: push the value, shift when
the window overflows `windowSize`, then recompute mean and the
Bessel-corrected standard deviation, with `Math.sqrt(variance) || 1`
falling back to `1` when the square root is `0`. `sqrt` stands in for
`Math.sqrt`. -/
def updateStat (sqrt : ℚ → ℚ) (windowSize : ℕ) (st : MetricStat) (value : ℚ) : MetricStat :=
  let pushed := st.points ++ [value]
  let pts := if pushed.length > windowSize then pushed.tail else pushed
  let n := pts.length
  if n = 0 then ⟨value, 1, pts⟩
  else
    let mean := pts.sum / n
    if n = 1 then ⟨mean, 1, pts⟩
    else
      let variance := (pts.map (fun p => (p - mean) ^ 2)).sum / ((n : ℚ) - 1)
      ⟨mean, jsOr1 (sqrt variance), pts⟩

/-- `ZScoreEngine.updateStats` applied to all four metrics of a point. -/
def updateAllStats (sqrt : ℚ → ℚ) (windowSize : ℕ) (stats : DeviceStats)
    (p : MetricPoint) : DeviceStats where
  temperature := updateStat sqrt windowSize stats.temperature p.temperature_c
  vibration := updateStat sqrt windowSize stats.vibration p.vibration_g
  humidity := updateStat sqrt windowSize stats.humidity p.humidity_pct
  voltage := updateStat sqrt windowSize stats.voltage p.voltage_v

/-- `ZScoreEngine.calculateZScore`: `0` when `std === 0`, else
`Math.abs((value - mean) / std)`. -/
def calculateZScore (value mean std : ℚ) : ℚ :=
  if std = 0 then 0 else jsAbs ((value - mean) / std)

/-- The loop body of `ZScoreEngine.scoreBatch`: update all four metric
windows with the point, then one z-score per metric against the updated
stats, scored as the maximum and flagged above `threshold`. -/
def zScoreStep (sqrt : ℚ → ℚ) (windowSize : ℕ) (threshold : ℚ)
    (stats : DeviceStats) (p : MetricPoint) (idx : ℕ) : DeviceStats × AnomalyResult :=
  let stats' := updateAllStats sqrt windowSize stats p
  let zTemp := calculateZScore p.temperature_c stats'.temperature.mean stats'.temperature.std
  let zVib := calculateZScore p.vibration_g stats'.vibration.mean stats'.vibration.std
  let zHum := calculateZScore p.humidity_pct stats'.humidity.mean stats'.humidity.std
  let zVolt := calculateZScore p.voltage_v stats'.voltage.mean stats'.voltage.std
  let maxZScore := jsMax (jsMax (jsMax zTemp zVib) zHum) zVolt
  (stats', ⟨idx, maxZScore, decide (maxZScore > threshold)⟩)

/-- The indexed loop of `ZScoreEngine.scoreBatch`, threading the device's
stats through the batch in arrival order. -/
def zScoreBatchGo (sqrt : ℚ → ℚ) (windowSize : ℕ) (threshold : ℚ) :
    DeviceStats → List MetricPoint → ℕ → DeviceStats × List AnomalyResult
  | stats, [], _ => (stats, [])
  | stats, p :: rest, idx =>
    let step := zScoreStep sqrt windowSize threshold stats p idx
    let next := zScoreBatchGo sqrt windowSize threshold step.1 rest (idx + 1)
    (next.1, step.2 :: next.2)

/-- `ZScoreEngine.scoreBatch` for one device (the `stats` map entry for
the device id is the `stats` argument; the updated entry is returned
alongside the results). -/
def zScoreBatch (sqrt : ℚ → ℚ) (windowSize : ℕ) (threshold : ℚ)
    (stats : DeviceStats) (points : List MetricPoint) : DeviceStats × List AnomalyResult :=
  zScoreBatchGo sqrt windowSize threshold stats points 0

end ZScore

section Bridge

/-- A device row: id, human name and the optional free-text location
column. -/
structure Device where
  id : String
  name : String
  location : Option String
deriving Repr, DecidableEq

/-- A persisted metric row (`prisma.metric.create` result): the store's
row id is modelled by a counter. -/
structure MetricRow where
  id : ℕ
  deviceId : String
  ts : String
  point : MetricPoint
deriving Repr, DecidableEq

/-- `BufferItem` of `bridge.ts` (the wall-clock `timestamp` field is set
but never read anywhere in the source, and is omitted). -/
structure BufferItem where
  deviceId : String
  metric : MetricRow
deriving Repr, DecidableEq

/-- An anomaly row as built by `storeAnomalies` / the ingest handler. -/
structure AnomalyRow where
  deviceId : String
  metricId : Option ℕ
  ts : String
  score : ℚ
  type : String
  flagged : Bool
deriving Repr, DecidableEq

/-- `ScoredPoint` of `pyservice.ts`: what the external scorer returns and
what `processBatchIfReady` feeds to `storeAnomalies`. -/
structure ScoredPoint where
  index : ℕ
  score : ℚ
  isAnomaly : Bool
deriving Repr, DecidableEq

/-- The Socket.IO events the backend emits. -/
inductive Event where
  | metricNew (deviceId : String) (metric : MetricRow)
  | anomalyNew (deviceId : String) (anomaly : AnomalyRow)
  | deviceUpdate (deviceId : String) (device : Device)
deriving Repr, DecidableEq

/-- How many of the events are `device:update` emissions. -/
def deviceUpdateCount (events : List Event) : ℕ :=
  (events.filter (fun e => match e with | Event.deviceUpdate _ _ => true | _ => false)).length

/-- The canonical location string `lat:<lat>,lng:<lng>` built by the
template literal in `ensureDeviceExists`; `render` stands in for
JavaScript's number-to-string interpolation. -/
def mkLocation (render : ℚ → String) (lat lng : ℚ) : String :=
  "lat:" ++ render lat ++ ",lng:" ++ render lng

/-- An MQTT payload after JSON parsing: `ts` string, the four
measurements, optional `lat`/`lng`. -/
structure Payload where
  ts : String
  point : MetricPoint
  lat : Option ℚ
  lng : Option ℚ

/-- The observable store plus module state of `bridge.ts`. `engineState`
is the per-device state of the module-level fallback engine
(`zScoreEngine = createAnomalyEngine()`), generic in the engine's state
type `σ`. `scoredIds` is an observer recording the ids of every metric
row handed to a scorer by `processBatchIfReady`. -/
structure BridgeState (σ : Type) where
  devices : String → Option Device
  metricRows : List MetricRow
  nextId : ℕ
  buffers : String → List BufferItem
  anomalies : List AnomalyRow
  engineState : String → σ
  scoredIds : List ℕ
  events : List Event

/-- The empty bridge store, the fallback engine fresh at every device. -/
def initBridge {σ : Type} (e0 : σ) : BridgeState σ where
  devices := fun _ => none
  metricRows := []
  nextId := 0
  buffers := fun _ => []
  anomalies := []
  engineState := fun _ => e0
  scoredIds := []
  events := []

/-- Static configuration of the bridge: the number renderer for the
location template, `MQTT_BATCH_SIZE`, `PY_ML_ENABLE`, the external
scorer RPC (`none` models timeout, non-2xx or transport failure), and
the module-level fallback engine (`createAnomalyEngine()`), whose
per-device step returns its new state and one result per point. -/
structure BridgeCfg (σ : Type) where
  render : ℚ → String
  batchSize : ℕ
  pyMlEnable : Bool
  external : List MetricPoint → Option (List ScoredPoint)
  fallback : σ → List MetricPoint → σ × List AnomalyResult

/-- `ensureDeviceExists`: prisma upsert — update the location when both
`lat` and `lng` are present, create the device (named `Device <id>`)
when missing. -/
def ensureDeviceExists (render : ℚ → String) (devices : String → Option Device)
    (deviceId : String) (lat lng : Option ℚ) : String → Option Device :=
  fun x =>
    if x = deviceId then
      match devices deviceId with
      | some dev =>
        some { dev with
          location :=
            match lat, lng with
            | some la, some ln => some (mkLocation render la ln)
            | _, _ => dev.location }
      | none =>
        some { id := deviceId
               name := "Device " ++ deviceId
               location :=
                 match lat, lng with
                 | some la, some ln => some (mkLocation render la ln)
                 | _, _ => none }
    else devices x

/-- The buffer update of `addToBatch`: push the item, then shift the
oldest one out when the buffer exceeds `BATCH_SIZE * 2`. -/
def addToBatchList (batchSize : ℕ) (buffer : List BufferItem) (item : BufferItem) :
    List BufferItem :=
  let pushed := buffer ++ [item]
  if pushed.length > batchSize * 2 then pushed.tail else pushed

/-- `storeAnomalies`: keep the flagged results, attach them to the batch
items by `index`, tag them `'isoforest'` when `PY_ML_ENABLE` is set and
`'zscore'` otherwise, insert and emit one `anomaly:new` per row.
(An out-of-range `index` is modelled as a missing metric reference; the
source would throw there, and no execution in this development reaches
that case.) -/
def storeAnomalies {σ : Type} (pyMlEnable : Bool) (st : BridgeState σ)
    (deviceId : String) (batch : List BufferItem) (scoredPoints : List ScoredPoint) :
    BridgeState σ :=
  let anomalies := (scoredPoints.filter (fun s => s.isAnomaly)).map (fun s =>
    { deviceId := deviceId
      metricId := (batch.get? s.index).map (fun item => item.metric.id)
      ts := ((batch.get? s.index).map (fun item => item.metric.ts)).getD ""
      score := s.score
      type := if pyMlEnable then "isoforest" else "zscore"
      flagged := true })
  if anomalies.length > 0 then
    { st with
      anomalies := st.anomalies ++ anomalies
      events := st.events ++ anomalies.map (Event.anomalyNew deviceId) }
  else st

/-- `processBatchIfReady`: flush only when the device's buffer has
reached `BATCH_SIZE` points; splice the batch off, score it with the
external service when `PY_ML_ENABLE` is set (falling back to the
module-level engine on failure) or with the module-level engine
directly, then store the flagged anomalies. -/
def processBatchIfReady {σ : Type} (cfg : BridgeCfg σ) (st : BridgeState σ)
    (deviceId : String) : BridgeState σ :=
  let buffer := st.buffers deviceId
  if buffer.length < cfg.batchSize then st
  else
    let batch := buffer.take cfg.batchSize
    let buffers' := fun x => if x = deviceId then buffer.drop cfg.batchSize else st.buffers x
    let points := batch.map (fun item => item.metric.point)
    let viaFallback : (String → σ) × List ScoredPoint :=
      (fun x =>
        if x = deviceId then (cfg.fallback (st.engineState deviceId) points).1
        else st.engineState x,
       (cfg.fallback (st.engineState deviceId) points).2.enum.map
         (fun x => ⟨x.1, x.2.score, x.2.isAnomaly⟩))
    let scored : (String → σ) × List ScoredPoint :=
      if cfg.pyMlEnable then
        match cfg.external points with
        | some rs => (st.engineState, rs)
        | none => viaFallback
      else viaFallback
    let scoredPoints := scored.2
    let st' := { st with
      buffers := buffers'
      engineState := scored.1
      scoredIds := st.scoredIds ++ batch.map (fun item => item.metric.id) }
    if scoredPoints.length > 0 then
      storeAnomalies cfg.pyMlEnable st' deviceId batch scoredPoints
    else st'

/-- The accepted-message body of `handleMQTTMessage`, after topic parsing
and payload validation: upsert the device, persist the metric row, add
it to the device's batch buffer, emit `metric:new`, then flush the
buffer if it is full. -/
def handlePoint {σ : Type} (cfg : BridgeCfg σ) (st : BridgeState σ)
    (deviceId : String) (payload : Payload) : BridgeState σ :=
  let st1 := { st with
    devices := ensureDeviceExists cfg.render st.devices deviceId payload.lat payload.lng }
  let row : MetricRow := ⟨st1.nextId, deviceId, payload.ts, payload.point⟩
  let st2 := { st1 with metricRows := st1.metricRows ++ [row], nextId := st1.nextId + 1 }
  let st3 := { st2 with
    buffers := fun x =>
      if x = deviceId then addToBatchList cfg.batchSize (st2.buffers deviceId) ⟨deviceId, row⟩
      else st2.buffers x }
  let st4 := { st3 with events := st3.events ++ [Event.metricNew deviceId row] }
  processBatchIfReady cfg st4 deviceId

/-- `handleMQTTMessage`: parse `sensors/<deviceId>/metrics` out of the
topic, drop malformed topics and payloads with a falsy `ts`, then run
the accepted-message body. -/
def handleMQTTMessage {σ : Type} (cfg : BridgeCfg σ) (st : BridgeState σ)
    (topic : String) (payload : Payload) : BridgeState σ :=
  let topicParts := topic.splitOn "/"
  if topicParts.length ≠ 3 ∨ topicParts.getD 0 "" ≠ "sensors" ∨
      topicParts.getD 2 "" ≠ "metrics" then st
  else if payload.ts = "" then st
  else handlePoint cfg st (topicParts.getD 1 "") payload

/-- A finite single-device execution of the bridge: the accepted-message
body applied to each payload in arrival order. -/
def runBridge {σ : Type} (cfg : BridgeCfg σ) (st : BridgeState σ)
    (deviceId : String) (payloads : List Payload) : BridgeState σ :=
  payloads.foldl (fun s p => handlePoint cfg s deviceId p) st

end Bridge

section Ingest

/-- One entry of the `metrics` array of a POST /api/ingest body, after
schema validation: optional client timestamp plus the four measurements. -/
structure IngestMetric where
  ts : Option String
  point : MetricPoint
deriving Repr, DecidableEq

/-- The HTTP response of the ingest handler: status code, and the
`metricsInserted` / `anomaliesDetected` counters of the 201 body. -/
structure IngestResult where
  status : ℕ
  metricsInserted : ℕ
  anomaliesDetected : ℕ
deriving Repr, DecidableEq

/-- The POST /api/ingest handler of `routes/ingest.ts`, over the same
store model as the bridge (`σ` is the state of the route's
`anomalyEngine = createAnomalyEngine()`, stepped per device by
`engine`). `now` stands in for the server timestamp. Validation failure
(an empty `metrics` array, rejected by the zod `min(1)`) is 400; an
unknown device with auto-provisioning off is 404 with the store
untouched; otherwise the device is created if needed, the batch is
inserted, scored as one unit, flagged results become anomaly rows tagged
`engineType`, and `metric:new` / `anomaly:new` events are emitted. -/
def ingestPost {σ : Type} (allowAutoDevice : Bool)
    (engine : σ → List MetricPoint → σ × List AnomalyResult) (engineType : String)
    (now : String) (st : BridgeState σ) (deviceId : String)
    (metrics : List IngestMetric) : IngestResult × BridgeState σ :=
  if metrics.length < 1 then (⟨400, 0, 0⟩, st)
  else
    match st.devices deviceId, allowAutoDevice with
    | none, false => (⟨404, 0, 0⟩, st)
    | foundDevice, _ =>
      let devices' :=
        match foundDevice with
        | some _ => st.devices
        | none => fun x =>
            if x = deviceId then some ⟨deviceId, "Device " ++ deviceId, none⟩
            else st.devices x
      let insertedMetrics := metrics.enum.map (fun x =>
        (⟨st.nextId + x.1, deviceId, (x.2.ts).getD now, x.2.point⟩ : MetricRow))
      let stepped := engine (st.engineState deviceId) (metrics.map (fun m => m.point))
      let anomaliesToInsert := (stepped.2.filter (fun r => r.isAnomaly)).map (fun r =>
        ({ deviceId := deviceId
           metricId := (insertedMetrics.get? r.pointIndex).map (fun m => m.id)
           ts := ((insertedMetrics.get? r.pointIndex).map (fun m => m.ts)).getD now
           score := r.score
           type := engineType
           flagged := true } : AnomalyRow))
      let st' := { st with
        devices := devices'
        metricRows := st.metricRows ++ insertedMetrics
        nextId := st.nextId + insertedMetrics.length
        anomalies := st.anomalies ++ anomaliesToInsert
        engineState := fun x => if x = deviceId then stepped.1 else st.engineState x
        events := st.events ++ insertedMetrics.map (Event.metricNew deviceId)
          ++ anomaliesToInsert.map (Event.anomalyNew deviceId) }
      (⟨201, insertedMetrics.length, anomaliesToInsert.length⟩, st')

end Ingest

section Realtime

/-- One connected Socket.IO session: its id and the set of rooms it has
joined via `subscribe:device` (a session in room `device:<id>` is
subscribed to that device). -/
structure Session where
  sid : ℕ
  rooms : List String
deriving Repr, DecidableEq

/-- The room name `device:<id>` used by `realtime.ts`. -/
def roomName (deviceId : String) : String := "device:" ++ deviceId

/-- `io.to(room).emit(...)`: the session ids reached by a room-scoped
emission. -/
def emitToRoom (sessions : List Session) (room : String) : List ℕ :=
  (sessions.filter (fun s => room ∈ s.rooms)).map (fun s => s.sid)

/-- `io.emit(...)`: the session ids reached by a broadcast to every
connected session. -/
def emitToAll (sessions : List Session) : List ℕ :=
  sessions.map (fun s => s.sid)

/-- The deliveries of `emitMetricNew` in `realtime.ts`: one emission to
the device's room followed by one broadcast to the general namespace.
`emitAnomalyNew` and `emitDeviceUpdate` have the identical delivery
shape, so this models all three. -/
def emitMetricNewDeliveries (sessions : List Session) (deviceId : String) : List ℕ :=
  emitToRoom sessions (roomName deviceId) ++ emitToAll sessions

end Realtime

section ClaimSide

/-- The spec's d formula for one point against a basis set of points:
the mean over the four features of `|x_i - med_i| / MAD_i`, with a MAD
of exactly `0` replaced by `1`. The spec computes the basis statistics
over the whole per-device window; the code computes them over the new
batch alone, so theorems below instantiate `basis` both ways. -/
def claimScoreD (basis : List MetricPoint) (p : MetricPoint) : ℚ :=
  (jsAbs (p.temperature_c - medianOf (basis.map (fun q => q.temperature_c)))
      / jsOr1 (madOf (basis.map (fun q => q.temperature_c)))
    + jsAbs (p.vibration_g - medianOf (basis.map (fun q => q.vibration_g)))
      / jsOr1 (madOf (basis.map (fun q => q.vibration_g)))
    + jsAbs (p.humidity_pct - medianOf (basis.map (fun q => q.humidity_pct)))
      / jsOr1 (madOf (basis.map (fun q => q.humidity_pct)))
    + jsAbs (p.voltage_v - medianOf (basis.map (fun q => q.voltage_v)))
      / jsOr1 (madOf (basis.map (fun q => q.voltage_v)))) / 4

/-- The claim's threshold: the value at the `(100 - P)`-th percentile
position of the ascending-sorted d values of the window. -/
def claimThreshold (thresholdPercentile : ℕ) (window : List MetricPoint) : ℚ :=
  let ds := jsSortAsc (window.map (claimScoreD window))
  ds.getD (ds.length * (100 - thresholdPercentile) / 100) 0

/-- The threshold `MedianDeviationEngine.scoreBatch` actually uses: the
value at index `Math.floor(n * (100 - P) / 100)` of the ascending sort
of the window's negated d scores. -/
def mdWindowThreshold (thresholdPercentile : ℕ) (window : List MetricPoint) : ℚ :=
  let sortedScores := jsSortAsc (mdScore (window.map featuresOf))
  sortedScores.getD (sortedScores.length * (100 - thresholdPercentile) / 100) 0

/-- The point all four of whose measurements are the constant `c`. -/
def constPoint (c : ℚ) : MetricPoint := ⟨c, c, c, c⟩

/-- All values in a z-score metric window equal `c`, and once the window
is non-empty its stored mean is `c`. -/
def statAllC (c : ℚ) (st : MetricStat) : Prop :=
  (∀ x ∈ st.points, x = c) ∧ (st.points ≠ [] → st.mean = c)

/-- `statAllC` across the four metric windows of a device. -/
def statsAllC (c : ℚ) (stats : DeviceStats) : Prop :=
  statAllC c stats.temperature ∧ statAllC c stats.vibration ∧
    statAllC c stats.humidity ∧ statAllC c stats.voltage

/-- The median-deviation engine as a bridge fallback step: state is the
per-device window. -/
def mdEngineStep (windowSize thresholdPercentile : ℕ) :
    List MetricPoint → List MetricPoint → List MetricPoint × List AnomalyResult :=
  fun window points =>
    ((mdScoreBatch windowSize thresholdPercentile window points).2,
     (mdScoreBatch windowSize thresholdPercentile window points).1)

/-- The z-score engine as a bridge fallback step: state is the device's
`DeviceStats`. -/
def zEngineStep (sqrt : ℚ → ℚ) (windowSize : ℕ) (threshold : ℚ) :
    DeviceStats → List MetricPoint → DeviceStats × List AnomalyResult :=
  fun stats points => zScoreBatch sqrt windowSize threshold stats points

/-- The bridge under its default environment: `MQTT_BATCH_SIZE = 64`,
`PY_ML_ENABLE = false`, and `createAnomalyEngine()` returning the
median-deviation engine with window 512 and percentile 95. -/
def defaultBridgeCfg (render : ℚ → String) : BridgeCfg (List MetricPoint) where
  render := render
  batchSize := 64
  pyMlEnable := false
  external := fun _ => none
  fallback := mdEngineStep 512 95

/-- A stand-in for `Math.sqrt` agreeing with it on the two values the
spike-batch execution reaches: `sqrt 0 = 0` and `sqrt 16 = 4`. -/
def sqrtDemo : ℚ → ℚ := fun q => if q = 16 then 4 else 0

/-- The bridge configured with `MQTT_BATCH_SIZE = 16`,
`PY_ML_ENABLE = true` (external scorer enabled), an external scorer that
fails on every call, and `ANOMALY_ENGINE = zscore` so that
`createAnomalyEngine()` is the z-score engine (window 512, threshold 3). -/
def failingExternalCfg : BridgeCfg DeviceStats where
  render := fun _ => ""
  batchSize := 16
  pyMlEnable := true
  external := fun _ => none
  fallback := zEngineStep sqrtDemo 512 3

/-- Fifteen all-zero payloads followed by one all-16 spike payload. -/
def spikePayloads : List Payload :=
  List.replicate 15 ⟨"t", constPoint 0, none, none⟩ ++ [⟨"t", constPoint 16, none, none⟩]

/-- Bookkeeping invariant of a single-device bridge execution after `m`
accepted messages: ids are assigned consecutively, every persisted id is
either already scored or still buffered (in order), the buffer is
strictly below the flush size, and points have been scored in whole
batches. -/
def bridgeInv {σ : Type} (batchSize : ℕ) (deviceId : String) (m : ℕ)
    (st : BridgeState σ) : Prop :=
  st.nextId = m
  ∧ st.metricRows.map (fun r => r.id) = List.range m
  ∧ List.range m = st.scoredIds ++ (st.buffers deviceId).map (fun i => i.metric.id)
  ∧ (st.buffers deviceId).length < batchSize
  ∧ batchSize ∣ st.scoredIds.length

end ClaimSide

/-! ### Helper lemmas -/

theorem jsAbs_nonneg (q : ℚ) : 0 ≤ jsAbs q := by
  unfold jsAbs; split <;> linarith

theorem jsAbs_neg_of_nonneg {q : ℚ} (h : 0 ≤ q) : jsAbs (-q) = q := by
  unfold jsAbs
  rcases lt_or_eq_of_le h with h1 | h1
  · rw [if_pos (by linarith), neg_neg]
  · simp [← h1]

theorem jsOr1_idem (q : ℚ) : jsOr1 (jsOr1 q) = jsOr1 q := by
  unfold jsOr1
  by_cases h : q = 0 <;> simp [h]

theorem jsOr1_pos {q : ℚ} (h : 0 ≤ q) : 0 < jsOr1 q := by
  unfold jsOr1
  by_cases h0 : q = 0
  · simp [h0]
  · rw [if_neg h0]
    exact lt_of_le_of_ne h (Ne.symm h0)

theorem getD_nonneg_of_forall {l : List ℚ} {i : ℕ} (h : ∀ x ∈ l, 0 ≤ x) :
    0 ≤ l.getD i 0 := by
  rw [List.getD_eq_getElem?_getD]
  cases hg : l[i]? with
  | none => simp
  | some x =>
    simp only [Option.getD_some]
    exact h x (List.getElem?_mem hg)

theorem mem_jsSortAsc {x : ℚ} {l : List ℚ} : x ∈ jsSortAsc l ↔ x ∈ l :=
  (List.perm_insertionSort (· ≤ ·) l).mem_iff

theorem madOf_nonneg (values : List ℚ) : 0 ≤ madOf values := by
  unfold madOf
  apply getD_nonneg_of_forall
  intro x hx
  rw [mem_jsSortAsc] at hx
  obtain ⟨v, _, rfl⟩ := List.mem_map.mp hx
  exact jsAbs_nonneg _

theorem claimScoreD_nonneg (basis : List MetricPoint) (p : MetricPoint) :
    0 ≤ claimScoreD basis p := by
  unfold claimScoreD
  have key : ∀ (proj : MetricPoint → ℚ),
      0 ≤ jsAbs (proj p - medianOf (basis.map proj)) / jsOr1 (madOf (basis.map proj)) := by
    intro proj
    exact div_nonneg (jsAbs_nonneg _) (le_of_lt (jsOr1_pos (madOf_nonneg _)))
  have := key (fun q => q.temperature_c)
  have := key (fun q => q.vibration_g)
  have := key (fun q => q.humidity_pct)
  have := key (fun q => q.voltage_v)
  positivity

/-- Expansion of the per-point score over four explicit features. -/
theorem mdPointScore_quad (m0 m1 m2 m3 d0 d1 d2 d3 x0 x1 x2 x3 : ℚ) :
    mdPointScore [m0, m1, m2, m3] [d0, d1, d2, d3] 4 [x0, x1, x2, x3] =
      -((jsAbs (x0 - m0) / jsOr1 d0 + (jsAbs (x1 - m1) / jsOr1 d1 +
        (jsAbs (x2 - m2) / jsOr1 d2 + (jsAbs (x3 - m3) / jsOr1 d3 + 0)))) / ((4 : ℕ) : ℚ)) := by
  unfold mdPointScore
  norm_num [List.range, List.range.loop, List.getD, List.get?]
  ring

/-- Scoring a batch of feature rows built by `featuresOf` computes, for
each point, the negated claim formula with the batch itself as basis. -/
theorem mdScore_map_featuresOf (points : List MetricPoint) :
    mdScore (points.map featuresOf) =
      points.map (fun p => -(claimScoreD points p)) := by
  cases points with
  | nil => rfl
  | cons p ps =>
    have hcol : ∀ (i : ℕ) (proj : MetricPoint → ℚ),
        (∀ q : MetricPoint, (featuresOf q).getD i 0 = proj q) →
        featureColumn ((p :: ps).map featuresOf) i = (p :: ps).map proj := by
      intro i proj hproj
      unfold featureColumn
      rw [List.map_map]
      exact List.map_congr_left (fun q _ => hproj q)
    have hmeds : ∀ i proj, (∀ q : MetricPoint, (featuresOf q).getD i 0 = proj q) →
        medianOf (featureColumn ((p :: ps).map featuresOf) i) = medianOf ((p :: ps).map proj) :=
      fun i proj hp => by rw [hcol i proj hp]
    have hmads : ∀ i proj, (∀ q : MetricPoint, (featuresOf q).getD i 0 = proj q) →
        madOf (featureColumn ((p :: ps).map featuresOf) i) = madOf ((p :: ps).map proj) :=
      fun i proj hp => by rw [hcol i proj hp]
    show List.map (mdPointScore
        (List.map (fun i => medianOf (featureColumn ((p :: ps).map featuresOf) i)) [0, 1, 2, 3])
        (List.map (fun i => jsOr1 (madOf (featureColumn ((p :: ps).map featuresOf) i))) [0, 1, 2, 3])
        4) ((p :: ps).map featuresOf) = _
    simp only [List.map_cons, List.map_nil]
    rw [show (featuresOf p :: List.map featuresOf ps) = (p :: ps).map featuresOf from rfl]
    rw [hmeds 0 (fun q => q.temperature_c) (fun q => rfl),
        hmeds 1 (fun q => q.vibration_g) (fun q => rfl),
        hmeds 2 (fun q => q.humidity_pct) (fun q => rfl),
        hmeds 3 (fun q => q.voltage_v) (fun q => rfl),
        hmads 0 (fun q => q.temperature_c) (fun q => rfl),
        hmads 1 (fun q => q.vibration_g) (fun q => rfl),
        hmads 2 (fun q => q.humidity_pct) (fun q => rfl),
        hmads 3 (fun q => q.voltage_v) (fun q => rfl)]
    set m0 := medianOf ((p :: ps).map (fun q => q.temperature_c)) with hm0
    set m1 := medianOf ((p :: ps).map (fun q => q.vibration_g)) with hm1
    set m2 := medianOf ((p :: ps).map (fun q => q.humidity_pct)) with hm2
    set m3 := medianOf ((p :: ps).map (fun q => q.voltage_v)) with hm3
    set a0 := madOf ((p :: ps).map (fun q => q.temperature_c)) with ha0
    set a1 := madOf ((p :: ps).map (fun q => q.vibration_g)) with ha1
    set a2 := madOf ((p :: ps).map (fun q => q.humidity_pct)) with ha2
    set a3 := madOf ((p :: ps).map (fun q => q.voltage_v)) with ha3
    have hpoint : ∀ q : MetricPoint,
        mdPointScore [m0, m1, m2, m3] [jsOr1 a0, jsOr1 a1, jsOr1 a2, jsOr1 a3] 4
          (featuresOf q) = -claimScoreD (p :: ps) q := by
      intro q
      rw [show featuresOf q =
          [q.temperature_c, q.vibration_g, q.humidity_pct, q.voltage_v] from rfl]
      rw [mdPointScore_quad]
      unfold claimScoreD
      rw [← hm0, ← hm1, ← hm2, ← hm3, ← ha0, ← ha1, ← ha2, ← ha3]
      rw [jsOr1_idem, jsOr1_idem, jsOr1_idem, jsOr1_idem]
      push_cast
      ring
    rw [List.map_map]
    exact congr_arg₂ List.cons (hpoint p) (List.map_congr_left fun q _ => hpoint q)

/-! ### C2: what the median-deviation detector reports for new points -/

/-- C2 counterexample. After a window of three all-zero points, scoring
the single-point batch `(10,10,10,10)` reports `score = 0, isAnomaly =
false`, because the new point is scored against the medians and MADs of
the new batch alone; the claim's formula (window-based d with the
window-percentile threshold) predicts `score = 10, isAnomaly = true`. -/
theorem md_window_scoring_counterexample :
    (mdScoreBatch 20 95 (mdScoreBatch 20 95 [] [⟨0,0,0,0⟩, ⟨0,0,0,0⟩, ⟨0,0,0,0⟩]).2
        [⟨10,10,10,10⟩]).1 = [⟨0, 0, false⟩]
    ∧ claimScoreD (mdScoreBatch 20 95 (mdScoreBatch 20 95 []
        [⟨0,0,0,0⟩, ⟨0,0,0,0⟩, ⟨0,0,0,0⟩]).2 [⟨10,10,10,10⟩]).2 ⟨10,10,10,10⟩ = 10
    ∧ claimThreshold 95 (mdScoreBatch 20 95 (mdScoreBatch 20 95 []
        [⟨0,0,0,0⟩, ⟨0,0,0,0⟩, ⟨0,0,0,0⟩]).2 [⟨10,10,10,10⟩]).2 = 0
    ∧ ([(⟨0, 0, false⟩ : AnomalyResult)] ≠ [(⟨0, 10, true⟩ : AnomalyResult)]) := by
  refine ⟨?_, ?_, ?_, ?_⟩ <;>
    norm_num [mdScoreBatch, pushWindow, jsSliceLast, mdScore, mdPointScore, featuresOf,
      featureColumn, medianOf, madOf, jsSortAsc, jsOr1, jsAbs, claimScoreD, claimThreshold,
      List.insertionSort, List.orderedInsert, List.enum, List.enumFrom, List.range,
      List.range.loop, AnomalyResult.mk.injEq]

/-- C2 amended. Whenever the window holds at least 2 points after
appending the batch, each new point is reported with score
`d = claimScoreD points p` — the claim's d formula, but with medians and
MADs taken over the new batch alone, not over the whole window — and
`isAnomaly` holds exactly when `-d` is below the value at index
`⌊n(100-P)/100⌋` of the ascending-sorted negated d values of the whole
window. -/
theorem md_batch_based_scoring (ws tp : ℕ) (window points : List MetricPoint)
    (h : 2 ≤ (pushWindow ws window points).length) :
    (mdScoreBatch ws tp window points).1 =
      points.enum.map (fun x =>
        ⟨x.1, claimScoreD points x.2,
          decide (-(claimScoreD points x.2) <
            mdWindowThreshold tp (pushWindow ws window points))⟩) := by
  unfold mdScoreBatch mdWindowThreshold
  rw [if_neg (by omega)]
  simp only [mdScore_map_featuresOf, List.enum_map, List.map_map]
  apply List.map_congr_left
  intro x _
  simp only [Function.comp, Prod.map, id_eq]
  rw [jsAbs_neg_of_nonneg (claimScoreD_nonneg points x.2)]

/-- Witness for `md_batch_based_scoring` at a concrete window and batch. -/
theorem md_batch_based_scoring_witness :
    2 ≤ (pushWindow 20 [⟨0,0,0,0⟩, ⟨0,0,0,0⟩] [⟨10,10,10,10⟩]).length
    ∧ (mdScoreBatch 20 95 [⟨0,0,0,0⟩, ⟨0,0,0,0⟩] [⟨10,10,10,10⟩]).1 =
      [⟨10,10,10,10⟩].enum.map (fun x =>
        ⟨x.1, claimScoreD [⟨10,10,10,10⟩] x.2,
          decide (-(claimScoreD [⟨10,10,10,10⟩] x.2) <
            mdWindowThreshold 95 (pushWindow 20 [⟨0,0,0,0⟩, ⟨0,0,0,0⟩] [⟨10,10,10,10⟩]))⟩) :=
  ⟨by norm_num [pushWindow, jsSliceLast],
   md_batch_based_scoring 20 95 _ _ (by norm_num [pushWindow, jsSliceLast])⟩

/-! ### C7: the MAD floor -/

/-- C7 counterexample. For the window `[0, 1/2, 1]` the true MAD is
`1/2`; the divisor the code uses (`(deviations[...] || 1)` then
`(mads[i] || 1)`) is `1/2`, strictly below `1`, not the `max(MAD, 1)`
the claim asserts — and the resulting scores (`-1` for the outer points)
are indeed divided by `1/2`, not by `1`. -/
theorem mad_floor_counterexample :
    madOf [0, 1/2, 1] = 1/2
    ∧ jsOr1 (jsOr1 (madOf [0, 1/2, 1])) = 1/2
    ∧ jsMax (madOf [0, 1/2, 1]) 1 = 1
    ∧ ¬(1 ≤ jsOr1 (jsOr1 (madOf [0, 1/2, 1])))
    ∧ mdScore [[0], [1/2], [1]] = [-1, 0, -1] := by
  refine ⟨?_, ?_, ?_, ?_, ?_⟩ <;>
    norm_num [mdScore, mdPointScore, featureColumn, medianOf, madOf, jsSortAsc, jsOr1, jsAbs,
      jsMax, List.insertionSort, List.orderedInsert, List.range, List.range.loop]

/-- C7 amended. The per-feature divisor is `MAD` itself when the MAD is
non-zero (even when it is strictly between 0 and 1) and `1` only when
the MAD is exactly `0`; in particular it is always strictly positive, so
the divide-by-zero protection does hold. -/
theorem mad_divisor_positive (values : List ℚ) :
    0 < jsOr1 (jsOr1 (madOf values))
    ∧ jsOr1 (jsOr1 (madOf values)) = (if madOf values = 0 then 1 else madOf values) := by
  constructor
  · exact jsOr1_pos (le_of_lt (jsOr1_pos (madOf_nonneg values)))
  · rw [jsOr1_idem]; rfl

/-! ### Z-score engine lemmas -/

theorem sum_of_all_eq {c : ℚ} : ∀ {l : List ℚ}, (∀ x ∈ l, x = c) → l.sum = l.length * c := by
  intro l
  induction l with
  | nil => intro _; simp
  | cons x xs ih =>
    intro h
    have hx : x = c := h x (List.mem_cons_self x xs)
    have hxs := ih (fun y hy => h y (List.mem_cons_of_mem x hy))
    simp [hx, hxs]
    ring

theorem mean_of_all_eq {l : List ℚ} {c : ℚ} (h : ∀ x ∈ l, x = c) (hne : l ≠ []) :
    l.sum / (l.length : ℚ) = c := by
  rw [sum_of_all_eq h]
  have hlen : (l.length : ℚ) ≠ 0 := by
    have := List.length_pos.mpr hne
    simp only [ne_eq, Nat.cast_eq_zero]
    omega
  field_simp

theorem calculateZScore_self (c s : ℚ) : calculateZScore c c s = 0 := by
  unfold calculateZScore jsAbs
  split
  · rfl
  · norm_num

theorem jsMax_zero : jsMax 0 0 = 0 := if_neg (lt_irrefl 0)

/-- Updating a metric window that holds only copies of `c` with another
`c` keeps the invariant and yields a stored mean of exactly `c`. -/
theorem updateStat_const (sqrt : ℚ → ℚ) (ws : ℕ) {st : MetricStat} {c : ℚ}
    (h : statAllC c st) :
    statAllC c (updateStat sqrt ws st c) ∧ (updateStat sqrt ws st c).mean = c := by
  have hall0 : ∀ x ∈ st.points ++ [c], x = c := by
    intro x hx
    rcases List.mem_append.mp hx with hx | hx
    · exact h.1 x hx
    · simpa using hx
  have hallt : ∀ x ∈ (st.points ++ [c]).tail, x = c :=
    fun x hx => hall0 x (List.mem_of_mem_tail hx)
  unfold statAllC
  simp only [updateStat]
  by_cases h1 : (st.points ++ [c]).length > ws
  · simp only [if_pos h1]
    by_cases h2 : (st.points ++ [c]).tail.length = 0
    · simp only [if_pos h2]
      refine ⟨⟨hallt, fun hne => ?_⟩, trivial⟩
      exact absurd (List.length_eq_zero.mp h2) hne
    · simp only [if_neg h2]
      have hne : (st.points ++ [c]).tail ≠ [] := fun he => h2 (by simp [he])
      have hmean := mean_of_all_eq hallt hne
      by_cases h3 : (st.points ++ [c]).tail.length = 1
      · simp only [if_pos h3]
        exact ⟨⟨hallt, fun _ => hmean⟩, hmean⟩
      · simp only [if_neg h3]
        exact ⟨⟨hallt, fun _ => hmean⟩, hmean⟩
  · simp only [if_neg h1]
    have hne : st.points ++ [c] ≠ [] := by simp
    by_cases h2 : (st.points ++ [c]).length = 0
    · exact absurd (List.length_eq_zero.mp h2) hne
    · simp only [if_neg h2]
      have hmean := mean_of_all_eq hall0 hne
      by_cases h3 : (st.points ++ [c]).length = 1
      · simp only [if_pos h3]
        exact ⟨⟨hall0, fun _ => hmean⟩, hmean⟩
      · simp only [if_neg h3]
        exact ⟨⟨hall0, fun _ => hmean⟩, hmean⟩

/-- One loop iteration of the z-score engine on a constant point keeps
the all-`c` invariant and reports `score = 0, isAnomaly = false`. -/
theorem zScoreStep_const (sqrt : ℚ → ℚ) (ws : ℕ) {t : ℚ} (ht : 0 ≤ t) {c : ℚ}
    {stats : DeviceStats} (h : statsAllC c stats) (idx : ℕ) :
    statsAllC c (zScoreStep sqrt ws t stats (constPoint c) idx).1
    ∧ (zScoreStep sqrt ws t stats (constPoint c) idx).2 = ⟨idx, 0, false⟩ := by
  obtain ⟨h1, h2, h3, h4⟩ := h
  have u1 := updateStat_const sqrt ws h1
  have u2 := updateStat_const sqrt ws h2
  have u3 := updateStat_const sqrt ws h3
  have u4 := updateStat_const sqrt ws h4
  unfold zScoreStep updateAllStats constPoint
  constructor
  · exact ⟨u1.1, u2.1, u3.1, u4.1⟩
  · simp only [u1.2, u2.2, u3.2, u4.2, calculateZScore_self, jsMax_zero]
    have : decide ((0 : ℚ) > t) = false := decide_eq_false (not_lt.mpr ht)
    simp [this]

/-- The z-score batch loop over a constant stream yields all-zero,
unflagged results at consecutive indices. -/
theorem zScoreBatchGo_const (sqrt : ℚ → ℚ) (ws : ℕ) {t : ℚ} (ht : 0 ≤ t) (c : ℚ) :
    ∀ (m k : ℕ) (stats : DeviceStats), statsAllC c stats →
      (zScoreBatchGo sqrt ws t stats (List.replicate m (constPoint c)) k).2
        = (List.range' k m).map (fun i => (⟨i, 0, false⟩ : AnomalyResult)) := by
  intro m
  induction m with
  | zero => intro k stats _; rfl
  | succ n ih =>
    intro k stats h
    have hstep := zScoreStep_const sqrt ws ht h k
    rw [List.replicate_succ]
    show ((zScoreBatchGo sqrt ws t (zScoreStep sqrt ws t stats (constPoint c) k).1
        (List.replicate n (constPoint c)) (k + 1)).1,
      (zScoreStep sqrt ws t stats (constPoint c) k).2 ::
        (zScoreBatchGo sqrt ws t (zScoreStep sqrt ws t stats (constPoint c) k).1
          (List.replicate n (constPoint c)) (k + 1)).2).2 = _
    rw [List.range'_succ k n 1, List.map_cons]
    simp only [hstep.2, ih (k + 1) _ hstep.1]

/-- Every fresh device satisfies the all-`c` invariant vacuously. -/
theorem statsAllC_init (c : ℚ) : statsAllC c initStats := by
  refine ⟨?_, ?_, ?_, ?_⟩ <;>
    exact ⟨fun x hx => absurd hx (List.not_mem_nil x), fun hne => absurd rfl hne⟩

/-! ### C8: the z-score detector on a constant stream -/

/-- C8. For any stream of `m` points all four of whose measurements
equal the constant `c`, the z-score engine reports `score = 0` and
`isAnomaly = false` for every point (for any model of `Math.sqrt` and
any non-negative threshold): on such a stream the Bessel-corrected
variance of every window is `0`, the stored deviation falls back to
`Math.sqrt(0) || 1`, and each per-metric z value is `0`. The `σ = 0`
guard of `calculateZScore` likewise returns `0`. -/
theorem zscore_constant_stream_no_anomaly (sqrt : ℚ → ℚ) (ws : ℕ) (t c : ℚ)
    (ht : 0 ≤ t) (m : ℕ) :
    (zScoreBatch sqrt ws t initStats (List.replicate m (constPoint c))).2
      = (List.range m).map (fun i => (⟨i, 0, false⟩ : AnomalyResult))
    ∧ (∀ value mean : ℚ, calculateZScore value mean 0 = 0) := by
  constructor
  · rw [List.range_eq_range']
    exact zScoreBatchGo_const sqrt ws ht c m 0 initStats (statsAllC_init c)
  · intro v μ
    unfold calculateZScore
    simp

/-- Witness for `zscore_constant_stream_no_anomaly`: five points of
constant value `22` under the default threshold `3`. -/
theorem zscore_constant_stream_no_anomaly_witness :
    (0 : ℚ) ≤ 3
    ∧ ((zScoreBatch (fun _ => 0) 200 3 initStats (List.replicate 5 (constPoint 22))).2
        = (List.range 5).map (fun i => (⟨i, 0, false⟩ : AnomalyResult))
      ∧ (∀ value mean : ℚ, calculateZScore value mean 0 = 0)) :=
  ⟨by norm_num, zscore_constant_stream_no_anomaly (fun _ => 0) 200 3 22 (by norm_num) 5⟩

/-! ### C9: the first point of a fresh detector -/

/-- C9. Under both engines the very first point of a fresh detector is
reported with `score = 0` and `isAnomaly = false`: the median-deviation
engine's window holds fewer than 2 points, and the z-score engine stores
mean equal to the point's own value with standard deviation fixed at 1,
so every z value is 0. -/
theorem first_point_scores_zero (p : MetricPoint) (sqrt : ℚ → ℚ)
    (wsMd tp wsZ : ℕ) (t : ℚ) (ht : 0 ≤ t) :
    (mdScoreBatch wsMd tp [] [p]).1 = [⟨0, 0, false⟩]
    ∧ (zScoreBatch sqrt wsZ t initStats [p]).2 = [⟨0, 0, false⟩]
    ∧ (updateAllStats sqrt wsZ initStats p).temperature.mean = p.temperature_c
    ∧ (updateAllStats sqrt wsZ initStats p).temperature.std = 1
    ∧ (updateAllStats sqrt wsZ initStats p).vibration.mean = p.vibration_g
    ∧ (updateAllStats sqrt wsZ initStats p).vibration.std = 1
    ∧ (updateAllStats sqrt wsZ initStats p).humidity.mean = p.humidity_pct
    ∧ (updateAllStats sqrt wsZ initStats p).humidity.std = 1
    ∧ (updateAllStats sqrt wsZ initStats p).voltage.mean = p.voltage_v
    ∧ (updateAllStats sqrt wsZ initStats p).voltage.std = 1 := by
  have hupd : ∀ v : ℚ, (updateStat sqrt wsZ initStat v).mean = v
      ∧ (updateStat sqrt wsZ initStat v).std = 1 := by
    intro v
    simp only [updateStat, initStat]
    by_cases h1 : wsZ = 0
    · norm_num [h1]
    · have h1' : ¬((1 : ℕ) > wsZ) := by omega
      norm_num [h1']
  have hmd : (mdScoreBatch wsMd tp [] [p]).1 = [⟨0, 0, false⟩] := by
    have hwin : pushWindow wsMd [] [p] = [p] := by
      unfold pushWindow jsSliceLast
      by_cases h1 : wsMd = 0 <;> simp [h1]
    unfold mdScoreBatch
    rw [hwin]
    norm_num [List.enum, List.enumFrom]
  refine ⟨hmd, ?_, (hupd _).1, (hupd _).2, (hupd _).1, (hupd _).2,
    (hupd _).1, (hupd _).2, (hupd _).1, (hupd _).2⟩
  show ((zScoreBatchGo sqrt wsZ t (zScoreStep sqrt wsZ t initStats p 0).1 [] 1).1,
    (zScoreStep sqrt wsZ t initStats p 0).2 ::
      (zScoreBatchGo sqrt wsZ t (zScoreStep sqrt wsZ t initStats p 0).1 [] 1).2).2 = _
  have hstep : (zScoreStep sqrt wsZ t initStats p 0).2 = ⟨0, 0, false⟩ := by
    unfold zScoreStep updateAllStats
    simp only [initStats]
    simp only [(hupd _).1, (hupd _).2, calculateZScore_self, jsMax_zero]
    have : decide ((0 : ℚ) > t) = false := decide_eq_false (not_lt.mpr ht)
    simp [this]
  rw [hstep]
  rfl

/-- Witness for `first_point_scores_zero` at a concrete first point. -/
theorem first_point_scores_zero_witness :
    (0 : ℚ) ≤ 3
    ∧ ((mdScoreBatch 512 95 [] [⟨22, 1/50, 45, 49/10⟩]).1 = [⟨0, 0, false⟩]
      ∧ (zScoreBatch (fun _ => 0) 200 3 initStats [⟨22, 1/50, 45, 49/10⟩]).2
          = [⟨0, 0, false⟩]
      ∧ (updateAllStats (fun _ => 0) 200 initStats ⟨22, 1/50, 45, 49/10⟩).temperature.mean = 22
      ∧ (updateAllStats (fun _ => 0) 200 initStats ⟨22, 1/50, 45, 49/10⟩).temperature.std = 1
      ∧ (updateAllStats (fun _ => 0) 200 initStats ⟨22, 1/50, 45, 49/10⟩).vibration.mean = 1/50
      ∧ (updateAllStats (fun _ => 0) 200 initStats ⟨22, 1/50, 45, 49/10⟩).vibration.std = 1
      ∧ (updateAllStats (fun _ => 0) 200 initStats ⟨22, 1/50, 45, 49/10⟩).humidity.mean = 45
      ∧ (updateAllStats (fun _ => 0) 200 initStats ⟨22, 1/50, 45, 49/10⟩).humidity.std = 1
      ∧ (updateAllStats (fun _ => 0) 200 initStats ⟨22, 1/50, 45, 49/10⟩).voltage.mean = 49/10
      ∧ (updateAllStats (fun _ => 0) 200 initStats ⟨22, 1/50, 45, 49/10⟩).voltage.std = 1) :=
  ⟨by norm_num, first_point_scores_zero ⟨22, 1/50, 45, 49/10⟩ (fun _ => 0) 512 95 200 3
    (by norm_num)⟩

/-! ### C10: the batch buffer bound -/

/-- C10. `addToBatch` preserves the `2 × BATCH_SIZE` bound on the
per-device buffer; below the bound it is a plain append, and exactly at
the bound the oldest buffered item is silently shifted out, so its
(already persisted) metric id disappears from the buffer while the new
item's id is appended. -/
theorem addToBatch_bound_and_discard (batchSize : ℕ) (buffer : List BufferItem)
    (item : BufferItem) (hB : 0 < batchSize) (h : buffer.length ≤ batchSize * 2) :
    (addToBatchList batchSize buffer item).length ≤ batchSize * 2
    ∧ (buffer.length < batchSize * 2 →
        addToBatchList batchSize buffer item = buffer ++ [item])
    ∧ (buffer.length = batchSize * 2 →
        addToBatchList batchSize buffer item = buffer.tail ++ [item]
        ∧ (addToBatchList batchSize buffer item).map (fun i => i.metric.id)
            = (buffer.map (fun i => i.metric.id)).tail ++ [item.metric.id]) := by
  refine ⟨?_, ?_, ?_⟩
  · simp only [addToBatchList]
    split_ifs with h1
    · simp only [List.length_tail, List.length_append, List.length_singleton]
      omega
    · simp only [List.length_append, List.length_singleton] at *
      omega
  · intro hlt
    simp only [addToBatchList]
    rw [if_neg (by simp only [List.length_append, List.length_singleton]; omega)]
  · intro heq
    have hne : buffer ≠ [] := by
      intro he
      rw [he] at heq
      simp at heq
      omega
    have htail : (buffer ++ [item]).tail = buffer.tail ++ [item] := by
      cases buffer with
      | nil => exact absurd rfl hne
      | cons b bs => rfl
    have hmain : addToBatchList batchSize buffer item = buffer.tail ++ [item] := by
      simp only [addToBatchList]
      rw [if_pos (by simp only [List.length_append, List.length_singleton]; omega), htail]
    refine ⟨hmain, ?_⟩
    rw [hmain, List.map_append, List.map_tail]
    rfl

/-- Witness for `addToBatch_bound_and_discard`: a full two-batch buffer
(`B = 1`) discards its oldest item. -/
theorem addToBatch_bound_and_discard_witness :
    (0 < 1 ∧ ([⟨"d", ⟨0, "d", "t", ⟨0,0,0,0⟩⟩⟩, ⟨"d", ⟨1, "d", "t", ⟨0,0,0,0⟩⟩⟩] :
        List BufferItem).length ≤ 1 * 2)
    ∧ ((addToBatchList 1 [⟨"d", ⟨0, "d", "t", ⟨0,0,0,0⟩⟩⟩, ⟨"d", ⟨1, "d", "t", ⟨0,0,0,0⟩⟩⟩]
          ⟨"d", ⟨2, "d", "t", ⟨0,0,0,0⟩⟩⟩).length ≤ 1 * 2
      ∧ (([⟨"d", ⟨0, "d", "t", ⟨0,0,0,0⟩⟩⟩, ⟨"d", ⟨1, "d", "t", ⟨0,0,0,0⟩⟩⟩] :
            List BufferItem).length < 1 * 2 →
          addToBatchList 1 [⟨"d", ⟨0, "d", "t", ⟨0,0,0,0⟩⟩⟩, ⟨"d", ⟨1, "d", "t", ⟨0,0,0,0⟩⟩⟩]
              ⟨"d", ⟨2, "d", "t", ⟨0,0,0,0⟩⟩⟩
            = [⟨"d", ⟨0, "d", "t", ⟨0,0,0,0⟩⟩⟩, ⟨"d", ⟨1, "d", "t", ⟨0,0,0,0⟩⟩⟩]
              ++ [⟨"d", ⟨2, "d", "t", ⟨0,0,0,0⟩⟩⟩])
      ∧ (([⟨"d", ⟨0, "d", "t", ⟨0,0,0,0⟩⟩⟩, ⟨"d", ⟨1, "d", "t", ⟨0,0,0,0⟩⟩⟩] :
            List BufferItem).length = 1 * 2 →
          addToBatchList 1 [⟨"d", ⟨0, "d", "t", ⟨0,0,0,0⟩⟩⟩, ⟨"d", ⟨1, "d", "t", ⟨0,0,0,0⟩⟩⟩]
              ⟨"d", ⟨2, "d", "t", ⟨0,0,0,0⟩⟩⟩
            = ([⟨"d", ⟨0, "d", "t", ⟨0,0,0,0⟩⟩⟩, ⟨"d", ⟨1, "d", "t", ⟨0,0,0,0⟩⟩⟩] :
                List BufferItem).tail ++ [⟨"d", ⟨2, "d", "t", ⟨0,0,0,0⟩⟩⟩]
          ∧ (addToBatchList 1 [⟨"d", ⟨0, "d", "t", ⟨0,0,0,0⟩⟩⟩, ⟨"d", ⟨1, "d", "t", ⟨0,0,0,0⟩⟩⟩]
              ⟨"d", ⟨2, "d", "t", ⟨0,0,0,0⟩⟩⟩).map (fun i => i.metric.id)
            = (([⟨"d", ⟨0, "d", "t", ⟨0,0,0,0⟩⟩⟩, ⟨"d", ⟨1, "d", "t", ⟨0,0,0,0⟩⟩⟩] :
                List BufferItem).map (fun i => i.metric.id)).tail ++ [2])) :=
  ⟨⟨by norm_num, by norm_num⟩,
   addToBatch_bound_and_discard 1 _ _ (by norm_num) (by norm_num)⟩

/-! ### Bridge lemmas -/

/-- `storeAnomalies` only appends anomaly rows and events. -/
theorem storeAnomalies_preserves {σ : Type} (pyMlEnable : Bool) (st : BridgeState σ)
    (deviceId : String) (batch : List BufferItem) (scoredPoints : List ScoredPoint) :
    (storeAnomalies pyMlEnable st deviceId batch scoredPoints).metricRows = st.metricRows
    ∧ (storeAnomalies pyMlEnable st deviceId batch scoredPoints).nextId = st.nextId
    ∧ (storeAnomalies pyMlEnable st deviceId batch scoredPoints).buffers = st.buffers
    ∧ (storeAnomalies pyMlEnable st deviceId batch scoredPoints).scoredIds = st.scoredIds
    ∧ (storeAnomalies pyMlEnable st deviceId batch scoredPoints).devices = st.devices := by
  simp only [storeAnomalies]
  split_ifs <;> exact ⟨rfl, rfl, rfl, rfl, rfl⟩

/-- A buffer below the flush size is left alone by `processBatchIfReady`. -/
theorem processBatch_skip {σ : Type} (cfg : BridgeCfg σ) (st : BridgeState σ)
    (deviceId : String) (h : (st.buffers deviceId).length < cfg.batchSize) :
    processBatchIfReady cfg st deviceId = st := by
  simp only [processBatchIfReady]
  rw [if_pos h]

/-- When the buffer has reached the flush size, `processBatchIfReady`
splices the batch off the buffer and records its metric ids as scored,
leaving rows, ids and devices alone. -/
theorem processBatch_flush {σ : Type} (cfg : BridgeCfg σ) (st : BridgeState σ)
    (deviceId : String) (h : ¬((st.buffers deviceId).length < cfg.batchSize)) :
    (processBatchIfReady cfg st deviceId).metricRows = st.metricRows
    ∧ (processBatchIfReady cfg st deviceId).nextId = st.nextId
    ∧ (processBatchIfReady cfg st deviceId).devices = st.devices
    ∧ (processBatchIfReady cfg st deviceId).buffers deviceId
        = (st.buffers deviceId).drop cfg.batchSize
    ∧ (processBatchIfReady cfg st deviceId).scoredIds
        = st.scoredIds
          ++ ((st.buffers deviceId).take cfg.batchSize).map (fun i => i.metric.id) := by
  simp only [processBatchIfReady, storeAnomalies]
  rw [if_neg h]
  split_ifs with h1 h2 <;> refine ⟨?_, ?_, ?_, ?_, ?_⟩ <;> simp

/-- Below twice the flush size (in particular below the flush size
itself) `addToBatch` is a plain append. -/
theorem addToBatchList_no_shift (batchSize : ℕ) (buffer : List BufferItem)
    (item : BufferItem) (h : buffer.length + 1 ≤ batchSize * 2) :
    addToBatchList batchSize buffer item = buffer ++ [item] := by
  simp only [addToBatchList]
  rw [if_neg (by simp only [List.length_append, List.length_singleton]; omega)]

/-- One accepted message advances the bridge bookkeeping invariant. -/
theorem handlePoint_inv {σ : Type} (cfg : BridgeCfg σ) (deviceId : String)
    (payload : Payload) (m : ℕ) (st : BridgeState σ) (hB : 0 < cfg.batchSize)
    (h : bridgeInv cfg.batchSize deviceId m st) :
    bridgeInv cfg.batchSize deviceId (m + 1) (handlePoint cfg st deviceId payload) := by
  obtain ⟨hId, hRows, hSplit, hLen, hDvd⟩ := h
  have hadd : addToBatchList cfg.batchSize (st.buffers deviceId)
      ⟨deviceId, ⟨st.nextId, deviceId, payload.ts, payload.point⟩⟩
      = st.buffers deviceId ++ [⟨deviceId, ⟨st.nextId, deviceId, payload.ts, payload.point⟩⟩] :=
    addToBatchList_no_shift _ _ _ (by omega)
  simp only [handlePoint]
  set row : MetricRow := ⟨st.nextId, deviceId, payload.ts, payload.point⟩ with hrow
  set st4 : BridgeState σ := { st with
    devices := ensureDeviceExists cfg.render st.devices deviceId payload.lat payload.lng
    metricRows := st.metricRows ++ [row]
    nextId := st.nextId + 1
    buffers := fun x =>
      if x = deviceId then addToBatchList cfg.batchSize (st.buffers deviceId) ⟨deviceId, row⟩
      else st.buffers x
    events := st.events ++ [Event.metricNew deviceId row] } with hst4
  have hbuf4 : st4.buffers deviceId
      = st.buffers deviceId ++ [⟨deviceId, row⟩] := by
    rw [hst4]
    simp only [if_pos rfl]
    exact hadd
  have hrows4 : st4.metricRows.map (fun r => r.id) = List.range (m + 1) := by
    rw [hst4]
    simp only [List.map_append, List.map_cons, List.map_nil, hRows, hrow, hId]
    rw [List.range_succ]
  have hsplit4 : List.range (m + 1)
      = st.scoredIds ++ (st4.buffers deviceId).map (fun i => i.metric.id) := by
    rw [hbuf4, List.map_append, List.range_succ, hSplit, hrow, hId]
    simp [List.append_assoc]
  show bridgeInv cfg.batchSize deviceId (m + 1) (processBatchIfReady cfg st4 deviceId)
  unfold bridgeInv
  have hsc : st4.scoredIds = st.scoredIds := rfl
  have hnext : st4.nextId = st.nextId + 1 := rfl
  by_cases hc : (st4.buffers deviceId).length < cfg.batchSize
  · rw [processBatch_skip cfg st4 deviceId hc]
    refine ⟨?_, ?_, ?_, ?_, ?_⟩
    · rw [hnext, hId]
    · exact hrows4
    · rw [hsc]
      exact hsplit4
    · exact hc
    · rw [hsc]
      exact hDvd
  · have hflush := processBatch_flush cfg st4 deviceId hc
    have hlen1 : (st4.buffers deviceId).length = (st.buffers deviceId).length + 1 := by
      rw [hbuf4, List.length_append, List.length_singleton]
    have hlen4 : (st4.buffers deviceId).length = cfg.batchSize := by omega
    have htake : (st4.buffers deviceId).take cfg.batchSize = st4.buffers deviceId :=
      List.take_of_length_le (le_of_eq hlen4)
    have hdrop : (st4.buffers deviceId).drop cfg.batchSize = [] :=
      List.drop_eq_nil_of_le (le_of_eq hlen4)
    refine ⟨?_, ?_, ?_, ?_, ?_⟩
    · rw [hflush.2.1, hnext, hId]
    · rw [hflush.1]
      exact hrows4
    · rw [hflush.2.2.2.1, hflush.2.2.2.2, hdrop, htake, hsc, List.map_nil,
        List.append_nil]
      exact hsplit4
    · rw [hflush.2.2.2.1, hdrop]
      exact hB
    · rw [hflush.2.2.2.2, htake, List.length_append, List.length_map, hlen4, hsc]
      exact Nat.dvd_add hDvd dvd_rfl

/-- The invariant propagates through any finite message list. -/
theorem runBridge_inv {σ : Type} (cfg : BridgeCfg σ) (deviceId : String)
    (hB : 0 < cfg.batchSize) :
    ∀ (payloads : List Payload) (m : ℕ) (st : BridgeState σ),
      bridgeInv cfg.batchSize deviceId m st →
      bridgeInv cfg.batchSize deviceId (m + payloads.length)
        (runBridge cfg st deviceId payloads) := by
  intro payloads
  induction payloads with
  | nil => intro m st h; simpa using h
  | cons p ps ih =>
    intro m st h
    have hstep := handlePoint_inv cfg deviceId p m st hB h
    have := ih (m + 1) (handlePoint cfg st deviceId p) hstep
    simp only [runBridge, List.foldl_cons] at *
    simpa [Nat.add_assoc, Nat.add_comm, Nat.add_left_comm] using this

/-! ### C1: once-and-only-once scoring of persisted points -/

/-- C1 counterexample. One accepted MQTT message under the default
configuration (`MQTT_BATCH_SIZE = 64`): its point is persisted (metric
id 0) and sits in the batch buffer, but the scored-id list is empty and
stays empty — the bridge has no 500 ms time trigger, only the size
trigger, so this finished execution leaves a persisted point unscored. -/
theorem mqtt_trailing_batch_unscored :
    ((handlePoint (defaultBridgeCfg (fun _ => "")) (initBridge []) "dev1"
        ⟨"2024-01-01T00:00:00Z", ⟨1, 2, 3, 4⟩, none, none⟩).metricRows).map (fun r => r.id)
      = [0]
    ∧ (handlePoint (defaultBridgeCfg (fun _ => "")) (initBridge []) "dev1"
        ⟨"2024-01-01T00:00:00Z", ⟨1, 2, 3, 4⟩, none, none⟩).scoredIds = []
    ∧ ((handlePoint (defaultBridgeCfg (fun _ => "")) (initBridge []) "dev1"
        ⟨"2024-01-01T00:00:00Z", ⟨1, 2, 3, 4⟩, none, none⟩).buffers "dev1").map
          (fun i => i.metric.id) = [0] := by
  refine ⟨?_, ?_, ?_⟩ <;>
    simp [handlePoint, processBatchIfReady, storeAnomalies, addToBatchList,
      ensureDeviceExists, initBridge, defaultBridgeCfg]

/-- C1 amended. In every finite single-device execution of the bridge,
for any batch size `B > 0`, any engine and any external-scorer
behaviour: the persisted metric ids are exactly `0, …, m-1`; they split
as the scored ids followed by the ids still buffered (so every persisted
point is scored at most once, in arrival order, and the scored-id list
has no duplicates); scoring happens only in whole flushed batches, so
exactly the trailing `m mod B` persisted points remain unscored — there
is no time trigger that would ever flush them. -/
theorem mqtt_scoring_accounting {σ : Type} (cfg : BridgeCfg σ) (e0 : σ)
    (deviceId : String) (payloads : List Payload) (hB : 0 < cfg.batchSize) :
    ((runBridge cfg (initBridge e0) deviceId payloads).metricRows).map (fun r => r.id)
        = List.range payloads.length
    ∧ ((runBridge cfg (initBridge e0) deviceId payloads).metricRows).map (fun r => r.id)
        = (runBridge cfg (initBridge e0) deviceId payloads).scoredIds
          ++ ((runBridge cfg (initBridge e0) deviceId payloads).buffers deviceId).map
              (fun i => i.metric.id)
    ∧ (runBridge cfg (initBridge e0) deviceId payloads).scoredIds.Nodup
    ∧ ((runBridge cfg (initBridge e0) deviceId payloads).buffers deviceId).length
        = payloads.length % cfg.batchSize
    ∧ (runBridge cfg (initBridge e0) deviceId payloads).scoredIds.length
        = cfg.batchSize * (payloads.length / cfg.batchSize) := by
  have hinit : bridgeInv cfg.batchSize deviceId 0 (initBridge e0) := by
    unfold bridgeInv initBridge
    exact ⟨rfl, rfl, rfl, hB, dvd_zero _⟩
  have h := runBridge_inv cfg deviceId hB payloads 0 (initBridge e0) hinit
  rw [Nat.zero_add] at h
  obtain ⟨h1, h2, h3, h4, h5⟩ := h
  obtain ⟨k, hk⟩ := h5
  have hlen : payloads.length
      = (runBridge cfg (initBridge e0) deviceId payloads).scoredIds.length
        + ((runBridge cfg (initBridge e0) deviceId payloads).buffers deviceId).length := by
    have := congrArg List.length h3
    simpa [List.length_append] using this
  have hmod : ((runBridge cfg (initBridge e0) deviceId payloads).buffers deviceId).length
      = payloads.length % cfg.batchSize := by
    rw [hlen, hk, Nat.mul_add_mod]
    exact (Nat.mod_eq_of_lt h4).symm
  have hdiv : (runBridge cfg (initBridge e0) deviceId payloads).scoredIds.length
      = cfg.batchSize * (payloads.length / cfg.batchSize) := by
    rw [hlen, hk, Nat.mul_add_div hB, Nat.div_eq_of_lt h4, Nat.add_zero]
  refine ⟨h2, h2.trans h3, ?_, hmod, hdiv⟩
  have : ((runBridge cfg (initBridge e0) deviceId payloads).scoredIds
      ++ ((runBridge cfg (initBridge e0) deviceId payloads).buffers deviceId).map
          (fun i => i.metric.id)).Nodup := by
    rw [← h3]
    exact List.nodup_range _
  exact this.of_append_left

/-- Witness for `mqtt_scoring_accounting`: one message under the default
configuration. -/
theorem mqtt_scoring_accounting_witness :
    0 < (defaultBridgeCfg (fun _ => "")).batchSize
    ∧ (((runBridge (defaultBridgeCfg (fun _ => "")) (initBridge []) "dev1"
          [⟨"t", ⟨1, 2, 3, 4⟩, none, none⟩]).metricRows).map (fun r => r.id)
        = List.range ([⟨"t", ⟨1, 2, 3, 4⟩, none, none⟩] : List Payload).length
      ∧ ((runBridge (defaultBridgeCfg (fun _ => "")) (initBridge []) "dev1"
          [⟨"t", ⟨1, 2, 3, 4⟩, none, none⟩]).metricRows).map (fun r => r.id)
        = (runBridge (defaultBridgeCfg (fun _ => "")) (initBridge []) "dev1"
            [⟨"t", ⟨1, 2, 3, 4⟩, none, none⟩]).scoredIds
          ++ ((runBridge (defaultBridgeCfg (fun _ => "")) (initBridge []) "dev1"
              [⟨"t", ⟨1, 2, 3, 4⟩, none, none⟩]).buffers "dev1").map (fun i => i.metric.id)
      ∧ (runBridge (defaultBridgeCfg (fun _ => "")) (initBridge []) "dev1"
          [⟨"t", ⟨1, 2, 3, 4⟩, none, none⟩]).scoredIds.Nodup
      ∧ ((runBridge (defaultBridgeCfg (fun _ => "")) (initBridge []) "dev1"
          [⟨"t", ⟨1, 2, 3, 4⟩, none, none⟩]).buffers "dev1").length
        = ([⟨"t", ⟨1, 2, 3, 4⟩, none, none⟩] : List Payload).length
            % (defaultBridgeCfg (fun _ => "")).batchSize
      ∧ (runBridge (defaultBridgeCfg (fun _ => "")) (initBridge []) "dev1"
          [⟨"t", ⟨1, 2, 3, 4⟩, none, none⟩]).scoredIds.length
        = (defaultBridgeCfg (fun _ => "")).batchSize
            * (([⟨"t", ⟨1, 2, 3, 4⟩, none, none⟩] : List Payload).length
                / (defaultBridgeCfg (fun _ => "")).batchSize)) :=
  ⟨by norm_num [defaultBridgeCfg],
   mqtt_scoring_accounting (defaultBridgeCfg (fun _ => "")) [] "dev1"
     [⟨"t", ⟨1, 2, 3, 4⟩, none, none⟩] (by norm_num [defaultBridgeCfg])⟩

/-! ### C3: the detector tag written on external-scorer fallback -/

set_option maxRecDepth 8000 in
set_option maxHeartbeats 4000000 in
/-- C3 failing-input evaluation. With `PY_ML_ENABLE = true`, an external
scorer that fails on every call, `MQTT_BATCH_SIZE = 16` and
`ANOMALY_ENGINE = zscore`, flushing a full buffer of fifteen all-zero
points and one all-16 spike re-scores the batch with the z-score
fallback (the spike's z value is 15/4 > 3, so one anomaly is found) —
yet the inserted anomaly row is tagged `"isoforest"`, the external
detector's tag, not `"zscore"`, the detector actually used. -/
theorem fallback_tag_not_zscore :
    ((processBatchIfReady failingExternalCfg
        { initBridge initStats with
          buffers := fun x =>
            if x = "dev1" then
              (List.range 15).map (fun i => ⟨"dev1", ⟨i, "dev1", "t", constPoint 0⟩⟩)
                ++ [⟨"dev1", ⟨15, "dev1", "t", constPoint 16⟩⟩]
            else []
          metricRows :=
            (List.range 15).map (fun i => ⟨i, "dev1", "t", constPoint 0⟩)
              ++ [⟨15, "dev1", "t", constPoint 16⟩]
          nextId := 16 }
        "dev1").anomalies).map (fun a => a.type) = ["isoforest"]
    ∧ ((processBatchIfReady failingExternalCfg
        { initBridge initStats with
          buffers := fun x =>
            if x = "dev1" then
              (List.range 15).map (fun i => ⟨"dev1", ⟨i, "dev1", "t", constPoint 0⟩⟩)
                ++ [⟨"dev1", ⟨15, "dev1", "t", constPoint 16⟩⟩]
            else []
          metricRows :=
            (List.range 15).map (fun i => ⟨i, "dev1", "t", constPoint 0⟩)
              ++ [⟨15, "dev1", "t", constPoint 16⟩]
          nextId := 16 }
        "dev1").anomalies) ≠ []
    ∧ "isoforest" ≠ "zscore" := by
  have h1 : ((processBatchIfReady failingExternalCfg
      { initBridge initStats with
        buffers := fun x =>
          if x = "dev1" then
            (List.range 15).map (fun i => ⟨"dev1", ⟨i, "dev1", "t", constPoint 0⟩⟩)
              ++ [⟨"dev1", ⟨15, "dev1", "t", constPoint 16⟩⟩]
          else []
        metricRows :=
          (List.range 15).map (fun i => ⟨i, "dev1", "t", constPoint 0⟩)
            ++ [⟨15, "dev1", "t", constPoint 16⟩]
        nextId := 16 }
      "dev1").anomalies).map (fun a => a.type) = ["isoforest"] := by
    norm_num [processBatchIfReady, storeAnomalies, initBridge, failingExternalCfg,
      zEngineStep, zScoreBatch, zScoreBatchGo, zScoreStep, updateAllStats, updateStat,
      calculateZScore, jsMax, jsAbs, jsOr1, sqrtDemo, constPoint, initStats, initStat,
      List.range, List.range.loop]
    rfl
  refine ⟨h1, ?_, by decide⟩
  intro he
  rw [he] at h1
  simp at h1

/-! ### C4: unknown device with auto-provisioning off -/

/-- C4. For any schema-valid ingest request (at least one metric) naming
a device absent from the store while auto-provisioning is disabled, the
handler returns 404 before touching anything: the returned store is the
input store — no metric row, no anomaly row, no event, for any engine. -/
theorem ingest_unknown_device_404 {σ : Type}
    (engine : σ → List MetricPoint → σ × List AnomalyResult) (engineType now : String)
    (st : BridgeState σ) (deviceId : String) (metrics : List IngestMetric)
    (hmiss : st.devices deviceId = none) (hlen : 1 ≤ metrics.length) :
    ingestPost false engine engineType now st deviceId metrics = (⟨404, 0, 0⟩, st) := by
  unfold ingestPost
  rw [if_neg (by omega), hmiss]

/-- Witness for `ingest_unknown_device_404`: a one-point request for the
unknown device `"new"` against the empty store. -/
theorem ingest_unknown_device_404_witness :
    ((initBridge ()).devices "new" = none
      ∧ 1 ≤ ([⟨none, ⟨0, 0, 0, 0⟩⟩] : List IngestMetric).length)
    ∧ ingestPost false (fun s _ => (s, [])) "zscore" "now" (initBridge ()) "new"
        [⟨none, ⟨0, 0, 0, 0⟩⟩] = (⟨404, 0, 0⟩, initBridge ()) :=
  ⟨⟨rfl, by norm_num⟩,
   ingest_unknown_device_404 (fun s _ => (s, [])) "zscore" "now" (initBridge ()) "new"
     [⟨none, ⟨0, 0, 0, 0⟩⟩] rfl (by norm_num)⟩

/-! ### C5: event delivery and subscriptions -/

/-- C5 counterexample. A connected session that has subscribed to
nothing (and joined no room at all, so it is no firehose subscriber in
any sense) still receives the `metric:new` event for device `"a"`,
because `emitMetricNew` follows its room-scoped emission with
`io.emit`, a broadcast to every connected session. -/
theorem broadcast_counterexample :
    (0 ∈ emitMetricNewDeliveries [⟨0, []⟩] "a")
    ∧ roomName "a" ∉ (([] : List String)) := by
  constructor
  · simp [emitMetricNewDeliveries, emitToRoom, emitToAll]
  · simp

/-- C5 amended. Every `metric:new` / `anomaly:new` / `device:update`
event is delivered to every connected session, subscribed or not; a
session subscribed to the device receives it twice (once via the device
room, once via the broadcast), any other session exactly once. There is
no opt-in firehose: the broadcast is unconditional. -/
theorem broadcast_delivery (sessions : List Session) (deviceId : String)
    (s : Session) (hs : s ∈ sessions)
    (hnd : (sessions.map Session.sid).Nodup) :
    s.sid ∈ emitMetricNewDeliveries sessions deviceId
    ∧ (emitMetricNewDeliveries sessions deviceId).count s.sid
        = (if roomName deviceId ∈ s.rooms then 2 else 1) := by
  constructor
  · exact List.mem_append.mpr (Or.inr (List.mem_map_of_mem _ hs))
  · rw [emitMetricNewDeliveries, List.count_append]
    have hall : (emitToAll sessions).count s.sid = 1 :=
      List.count_eq_one_of_mem hnd (List.mem_map_of_mem _ hs)
    have hsubnd : ((sessions.filter
        (fun t => decide (roomName deviceId ∈ t.rooms))).map Session.sid).Nodup :=
      hnd.sublist ((List.filter_sublist sessions).map Session.sid)
    by_cases hroom : roomName deviceId ∈ s.rooms
    · have hmemf : s ∈ sessions.filter (fun t => decide (roomName deviceId ∈ t.rooms)) :=
        List.mem_filter.mpr ⟨hs, by simpa using hroom⟩
      have hcr : (emitToRoom sessions (roomName deviceId)).count s.sid = 1 :=
        List.count_eq_one_of_mem hsubnd (List.mem_map_of_mem _ hmemf)
      rw [if_pos hroom, emitToRoom] at *
      omega
    · have hcr : (emitToRoom sessions (roomName deviceId)).count s.sid = 0 := by
        apply List.count_eq_zero.mpr
        intro hin
        obtain ⟨t, htf, htsid⟩ := List.mem_map.mp hin
        have hts : t ∈ sessions := List.mem_of_mem_filter htf
        have : t = s := List.inj_on_of_nodup_map hnd hts hs htsid
        rw [this] at htf
        exact hroom (by simpa using (List.mem_filter.mp htf).2)
      rw [if_neg hroom, emitToRoom] at *
      omega

/-- Witness for `broadcast_delivery`: two sessions, one subscribed to
device `a` (delivered twice) — applied at the subscribed one. -/
theorem broadcast_delivery_witness :
    ((⟨0, [roomName "a"]⟩ : Session) ∈
        [(⟨0, [roomName "a"]⟩ : Session), ⟨1, []⟩]
      ∧ (([(⟨0, [roomName "a"]⟩ : Session), ⟨1, []⟩].map Session.sid)).Nodup)
    ∧ ((⟨0, [roomName "a"]⟩ : Session).sid ∈
        emitMetricNewDeliveries [⟨0, [roomName "a"]⟩, ⟨1, []⟩] "a"
      ∧ (emitMetricNewDeliveries [⟨0, [roomName "a"]⟩, ⟨1, []⟩] "a").count
            (⟨0, [roomName "a"]⟩ : Session).sid
          = (if roomName "a" ∈ (⟨0, [roomName "a"]⟩ : Session).rooms then 2 else 1)) :=
  ⟨⟨by simp, by simp⟩,
   broadcast_delivery [⟨0, [roomName "a"]⟩, ⟨1, []⟩] "a" ⟨0, [roomName "a"]⟩
     (by simp) (by simp)⟩

/-! ### C6: MQTT location handling and device:update -/

/-- Counting `device:update` events distributes over append. -/
theorem deviceUpdateCount_append (a b : List Event) :
    deviceUpdateCount (a ++ b) = deviceUpdateCount a + deviceUpdateCount b := by
  simp [deviceUpdateCount, List.filter_append]

/-- `anomaly:new` emissions are not `device:update` emissions. -/
theorem deviceUpdateCount_anomalyNew (deviceId : String) (l : List AnomalyRow) :
    deviceUpdateCount (l.map (Event.anomalyNew deviceId)) = 0 := by
  induction l with
  | nil => rfl
  | cons a as ih => simp [deviceUpdateCount, List.filter] at ih ⊢

/-- A mapped list of `anomaly:new` emissions holds no `device:update`. -/
theorem deviceUpdateCount_map_comp {α : Type} (deviceId : String) (f : α → AnomalyRow)
    (l : List α) :
    deviceUpdateCount (l.map (Event.anomalyNew deviceId ∘ f)) = 0 := by
  induction l with
  | nil => rfl
  | cons a as ih => simp [deviceUpdateCount, List.filter] at ih ⊢

/-- `processBatchIfReady` emits only `anomaly:new` events and never
touches the device table. -/
theorem processBatch_no_device_update {σ : Type} (cfg : BridgeCfg σ)
    (st : BridgeState σ) (deviceId : String) :
    deviceUpdateCount (processBatchIfReady cfg st deviceId).events
        = deviceUpdateCount st.events
    ∧ (processBatchIfReady cfg st deviceId).devices = st.devices := by
  simp only [processBatchIfReady, storeAnomalies]
  split_ifs <;>
    simp [deviceUpdateCount_append, deviceUpdateCount_anomalyNew, deviceUpdateCount_map_comp]

/-- C6 amended. For every accepted MQTT message whose payload carries
both `lat` and `lng`, the bridge stores the device's location as the
canonical `lat:<lat>,lng:<lng>` string — but it emits no `device:update`
event at all (the only `device:update` emitter in the backend is the
POST /api/devices route), against the claim's "exactly one". -/
theorem bridge_location_no_event {σ : Type} (cfg : BridgeCfg σ) (st : BridgeState σ)
    (deviceId : String) (payload : Payload) (la ln : ℚ)
    (hla : payload.lat = some la) (hln : payload.lng = some ln) :
    ((handlePoint cfg st deviceId payload).devices deviceId).map (fun d => d.location)
        = some (some (mkLocation cfg.render la ln))
    ∧ deviceUpdateCount (handlePoint cfg st deviceId payload).events
        = deviceUpdateCount st.events := by
  unfold handlePoint
  constructor
  · rw [(processBatch_no_device_update cfg _ deviceId).2]
    show (ensureDeviceExists cfg.render st.devices deviceId payload.lat payload.lng
        deviceId).map (fun d => d.location) = _
    unfold ensureDeviceExists
    rw [if_pos rfl, hla, hln]
    cases st.devices deviceId <;> rfl
  · rw [(processBatch_no_device_update cfg _ deviceId).1]
    show deviceUpdateCount (st.events ++ [Event.metricNew deviceId _]) = _
    rw [deviceUpdateCount_append]
    rfl

/-- Witness for `bridge_location_no_event`: the scenario of spec §8 S4,
device `dev42` at `lat:37.3,lng:-121.9`. -/
theorem bridge_location_no_event_witness :
    ((⟨"2024-01-01T00:00:00Z", ⟨1, 2, 3, 4⟩, some (373/10), some (-1219/10)⟩ :
        Payload).lat = some (373/10)
      ∧ (⟨"2024-01-01T00:00:00Z", ⟨1, 2, 3, 4⟩, some (373/10), some (-1219/10)⟩ :
        Payload).lng = some (-1219/10))
    ∧ (((handlePoint (defaultBridgeCfg (fun _ => "")) (initBridge []) "dev42"
          ⟨"2024-01-01T00:00:00Z", ⟨1, 2, 3, 4⟩, some (373/10), some (-1219/10)⟩).devices
            "dev42").map (fun d => d.location)
        = some (some (mkLocation (defaultBridgeCfg (fun _ => "")).render (373/10) (-1219/10)))
      ∧ deviceUpdateCount (handlePoint (defaultBridgeCfg (fun _ => "")) (initBridge [])
          "dev42" ⟨"2024-01-01T00:00:00Z", ⟨1, 2, 3, 4⟩, some (373/10),
            some (-1219/10)⟩).events
        = deviceUpdateCount (initBridge ([] : List MetricPoint)).events) :=
  ⟨⟨rfl, rfl⟩,
   bridge_location_no_event (defaultBridgeCfg (fun _ => "")) (initBridge []) "dev42"
     ⟨"2024-01-01T00:00:00Z", ⟨1, 2, 3, 4⟩, some (373/10), some (-1219/10)⟩
     (373/10) (-1219/10) rfl rfl⟩

/-- C6 counterexample. The accepted message for `dev42` with
`lat = 37.3, lng = -121.9` stores the canonical location string, but the
execution emits zero `device:update` events, not exactly one. -/
theorem bridge_no_device_update_counterexample :
    deviceUpdateCount (handlePoint (defaultBridgeCfg (fun _ => "")) (initBridge []) "dev42"
        ⟨"2024-01-01T00:00:00Z", ⟨1, 2, 3, 4⟩, some (373/10), some (-1219/10)⟩).events = 0
    ∧ ((handlePoint (defaultBridgeCfg (fun _ => "")) (initBridge []) "dev42"
        ⟨"2024-01-01T00:00:00Z", ⟨1, 2, 3, 4⟩, some (373/10), some (-1219/10)⟩).devices
          "dev42").map (fun d => d.location)
        = some (some (mkLocation (fun _ => "") (373/10) (-1219/10)))
    ∧ (0 : ℕ) ≠ 1 := by
  refine ⟨?_, ?_, by decide⟩ <;>
    simp [handlePoint, processBatchIfReady, storeAnomalies, addToBatchList,
      ensureDeviceExists, initBridge, defaultBridgeCfg, deviceUpdateCount, mkLocation]

end Iot
